import Mathlib

/-!
Shallow embedding of the AI media calculator's recommendation engine
(`src/index.tsx`, the `useRecommendation` hook and its helpers, lines 289-528,
together with the static catalog `DETAILED_PLATFORM_DATA`, lines 100-267).

JavaScript numbers are modelled by `ℚ`; the only place the program produces
`Infinity` is by assigning the literal `Infinity` (never as the result of an
arithmetic overflow), so quantities that can be infinite are modelled by the
two-constructor type `ERat` below.  `Math.ceil` / `Math.floor` become
`Int.ceil` / `Int.floor` on `ℚ`.  The reason strings pushed by the engine are
modelled by the inductive `Reason`: the source only ever pushes the three
literal templates "Requires N accounts", "Over budget" and
"Challenging deadline: needs N accounts", and the test
`reasons[0].includes('accounts')` holds exactly for the first and third of
these, which is the `Reason.includesAccounts` function.
-/

/-- `'cost' | 'duration'` calculation mode. -/
inductive CalcMode where
  | cost
  | duration
deriving DecidableEq, Repr

/-- `Option.costUnit` in the source (`'credits' | 'tokens' | 'compute_seconds'
| 'clips' | 'per_second' | 'ratio'`).  The `ratio` member is named
`ratioUnit` here. -/
inductive CostUnit where
  | credits
  | tokens
  | compute_seconds
  | clips
  | per_second
  | ratioUnit
deriving DecidableEq, Repr

/-- `Plan.quotaUnit` in the source. -/
inductive QuotaUnit where
  | credits
  | tokens
  | compute_seconds
  | clips
  | unlimited
deriving DecidableEq, Repr

/-- `Option.resolution` in the source (`'720p' | '1080p' | '1080p+' | '4K'`). -/
inductive Resolution where
  | r720p
  | r1080p
  | r1080pPlus
  | r4K
deriving DecidableEq, Repr

/-- Feature flags of an option. -/
inductive Feature where
  | motionBrush
  | keyframeEditor
  | storyboardExport
  | audioVideoSync
deriving DecidableEq, Repr

/-- `Platform.apiAvailable` in the source (`'Yes' | 'No' | 'Limited' | 'Enterprise'`). -/
inductive ApiTier where
  | yes
  | no
  | limited
  | enterprise
deriving DecidableEq, Repr

/-- Expertise levels. -/
inductive Expertise where
  | beginner
  | intermediate
  | expert
deriving DecidableEq, Repr

/-- `audioNeeds` in the source (`'none' | 'basic' | 'advanced'`). -/
inductive AudioNeeds where
  | none
  | basic
  | advanced
deriving DecidableEq, Repr

/-- `Option.cost` in the source: `number | [number, number]`. -/
inductive CostSpec where
  | single (q : ℚ)
  | range (lo hi : ℚ)
deriving DecidableEq, Repr

/-- A JavaScript number that may be the literal `Infinity`; all finite values
are rationals.  (`NaN` never arises on the executions the theorems below are
about.) -/
inductive ERat where
  | fin (q : ℚ)
  | inf
deriving DecidableEq, Repr

/-- `x <= y` on possibly-infinite values, as JavaScript's `<=` behaves on
non-`NaN` numbers. -/
def ERat.leb : ERat → ERat → Bool
  | .fin a, .fin b => a ≤ b
  | .fin _, .inf => true
  | .inf, .fin _ => false
  | .inf, .inf => true

/-- `x < y` on possibly-infinite values. -/
def ERat.ltb (x y : ERat) : Bool := !(ERat.leb y x)

/-- `Option` record of the source (named `MediaOption` because `Option` is
taken in Lean).  `audio` is named `hasAudio`. -/
structure MediaOption where
  modelId : String
  modelName : String
  maxDurationSec : ℚ
  resolution : Resolution
  hasAudio : Bool
  costUnit : CostUnit
  cost : CostSpec
  features : List Feature := []
deriving DecidableEq, Repr

/-- `Plan` record of the source.  `maxParallelAPI` is the optional field. -/
structure Plan where
  planName : String
  monthlyCost : ℚ
  quota : ℚ
  quotaUnit : QuotaUnit
  maxParallel : ℚ
  maxParallelAPI : Option ℚ := Option.none
  avgTimePerClipMin : ℚ
  options : List MediaOption
deriving DecidableEq, Repr

/-- `Platform` record of the source. -/
structure Platform where
  platformName : String
  apiAvailable : ApiTier
  setupDays : ℚ
  techLevel : Expertise
  plans : List Plan
deriving DecidableEq, Repr

/-- `RecommendationInputs` record of the source (the `rateLimit` display
string is dropped: it is never read by the engine). -/
structure RecommendationInputs where
  calcMode : CalcMode
  deadline : ℚ
  duration : ℚ
  budget : ℚ
  costQuality : ℚ
  speedCost : ℚ
  audioNeeds : AudioNeeds
  expertise : Expertise
  enableComparison : Bool
  traditionalCost : ℚ
  traditionalTime : ℚ
deriving DecidableEq, Repr

/-- The reasons the engine can push (the three string templates of the
source, with the interpolated account count kept as data). -/
inductive Reason where
  | requiresAccounts (n : ℚ)
  | overBudget
  | challengingDeadline (n : ℚ)
deriving DecidableEq, Repr

/-- `reason.includes('accounts')`: true exactly for the two templates whose
text contains the word "accounts". -/
def Reason.includesAccounts : Reason → Bool
  | .requiresAccounts _ => true
  | .overBudget => false
  | .challengingDeadline _ => true

/-- `ScoredPlatform` record of the source. -/
structure ScoredPlatform where
  platformName : String
  planName : String
  option : MediaOption
  score : ℚ
  totalCost : ERat
  rawGenerationTimeDays : ℚ
  costPerSecondUSD : ERat
  qualityScore : ℚ
  feasible : Bool
  reasons : List Reason
  accountsNeeded : ℚ
  apiAvailable : ApiTier
  achievableDuration : ℚ
  plansAffordable : Option ℤ := Option.none
  monthlyCost : ℚ
deriving DecidableEq, Repr

/-! ### The static catalog `DETAILED_PLATFORM_DATA` (source lines 100-267).

Plans and options that are referenced individually by theorems below are
given their own named definitions; everything else is inlined. -/

/-- Kling AI / Standard / "Standard 5s" option. -/
def klingStd5s : MediaOption :=
  { modelId := "kling-std-5s", modelName := "Standard 5s", maxDurationSec := 5,
    resolution := .r1080p, hasAudio := false, costUnit := .credits,
    cost := .single 10, features := [.motionBrush] }

/-- Kling AI "Standard" plan. -/
def klingStandardPlan : Plan :=
  { planName := "Standard", monthlyCost := 10, quota := 660, quotaUnit := .credits,
    maxParallel := 8, avgTimePerClipMin := 1.5,
    options := [klingStd5s,
      { modelId := "kling-std-10s", modelName := "Standard 10s", maxDurationSec := 10,
        resolution := .r1080p, hasAudio := false, costUnit := .credits,
        cost := .single 20, features := [.motionBrush] }] }

/-- Kling AI platform. -/
def klingAI : Platform :=
  { platformName := "Kling AI", apiAvailable := .limited, setupDays := 0.5,
    techLevel := .beginner,
    plans := [klingStandardPlan,
      { planName := "Pro", monthlyCost := 37, quota := 3000, quotaUnit := .credits,
        maxParallel := 8, avgTimePerClipMin := 1.2,
        options := [
          { modelId := "kling-pro-5s", modelName := "Professional (High-Quality) 5s",
            maxDurationSec := 5, resolution := .r1080pPlus, hasAudio := true,
            costUnit := .credits, cost := .single 35,
            features := [.motionBrush, .keyframeEditor] },
          { modelId := "kling-pro-10s", modelName := "Professional (High-Quality) 10s",
            maxDurationSec := 10, resolution := .r1080pPlus, hasAudio := true,
            costUnit := .credits, cost := .single 70,
            features := [.motionBrush, .keyframeEditor] }] },
      { planName := "Premier", monthlyCost := 92, quota := 8000, quotaUnit := .credits,
        maxParallel := 8, avgTimePerClipMin := 1.0,
        options := [
          { modelId := "kling-prm-5s", modelName := "Professional (High-Quality) 5s",
            maxDurationSec := 5, resolution := .r1080pPlus, hasAudio := true,
            costUnit := .credits, cost := .single 35,
            features := [.motionBrush, .keyframeEditor] },
          { modelId := "kling-prm-10s", modelName := "Professional (High-Quality) 10s",
            maxDurationSec := 10, resolution := .r1080pPlus, hasAudio := true,
            costUnit := .credits, cost := .single 70,
            features := [.motionBrush, .keyframeEditor] }] }] }

/-- Leonardo AI (Web App) / Apprentice / "Motion 1.0" option. -/
def leoWebMotion1A : MediaOption :=
  { modelId := "leo-web-m1-a", modelName := "Motion 1.0", maxDurationSec := 3,
    resolution := .r720p, hasAudio := false, costUnit := .tokens, cost := .single 45 }

/-- Leonardo AI (Web App) "Apprentice" plan. -/
def leoApprenticePlan : Plan :=
  { planName := "Apprentice", monthlyCost := 10, quota := 8500, quotaUnit := .tokens,
    maxParallel := 5, avgTimePerClipMin := 1.5,
    options := [leoWebMotion1A,
      { modelId := "leo-web-m2-a", modelName := "Motion 2.0", maxDurationSec := 5,
        resolution := .r1080p, hasAudio := false, costUnit := .tokens, cost := .single 200 }] }

/-- Leonardo AI (Web App) platform. -/
def leoWebApp : Platform :=
  { platformName := "Leonardo AI (Web App)", apiAvailable := .no, setupDays := 0.5,
    techLevel := .beginner,
    plans := [leoApprenticePlan,
      { planName := "Artisan Unlimited", monthlyCost := 24, quota := 25500,
        quotaUnit := .tokens, maxParallel := 5, avgTimePerClipMin := 1.2,
        options := [
          { modelId := "leo-web-m1-art", modelName := "Motion 1.0", maxDurationSec := 3,
            resolution := .r720p, hasAudio := false, costUnit := .tokens, cost := .single 45 },
          { modelId := "leo-web-m2-art", modelName := "Motion 2.0", maxDurationSec := 5,
            resolution := .r1080p, hasAudio := false, costUnit := .tokens, cost := .single 200 }] },
      { planName := "Maestro Unlimited", monthlyCost := 48, quota := 60000,
        quotaUnit := .tokens, maxParallel := 5, avgTimePerClipMin := 1.0,
        options := [
          { modelId := "leo-web-m1-m", modelName := "Motion 1.0", maxDurationSec := 3,
            resolution := .r720p, hasAudio := false, costUnit := .tokens, cost := .single 45 },
          { modelId := "leo-web-m2-m", modelName := "Motion 2.0", maxDurationSec := 5,
            resolution := .r1080p, hasAudio := false, costUnit := .tokens, cost := .single 200 }] }] }

/-- Leonardo AI (API) platform. -/
def leoAPI : Platform :=
  { platformName := "Leonardo AI (API)", apiAvailable := .yes, setupDays := 0.5,
    techLevel := .expert,
    plans := [
      { planName := "API Basic", monthlyCost := 9, quota := 3500, quotaUnit := .tokens,
        maxParallel := 5, maxParallelAPI := some 5, avgTimePerClipMin := 1.5,
        options := [
          { modelId := "leo-api-motion-1-b", modelName := "Motion 1.0", maxDurationSec := 3,
            resolution := .r720p, hasAudio := false, costUnit := .tokens, cost := .single 45 },
          { modelId := "leo-api-motion-2-b", modelName := "Motion 2.0", maxDurationSec := 5,
            resolution := .r1080p, hasAudio := false, costUnit := .tokens, cost := .single 200 }] },
      { planName := "API Standard", monthlyCost := 49, quota := 25000, quotaUnit := .tokens,
        maxParallel := 5, maxParallelAPI := some 10, avgTimePerClipMin := 1.2,
        options := [
          { modelId := "leo-api-motion-1-s", modelName := "Motion 1.0", maxDurationSec := 3,
            resolution := .r720p, hasAudio := false, costUnit := .tokens, cost := .single 45 },
          { modelId := "leo-api-motion-2-s", modelName := "Motion 2.0", maxDurationSec := 5,
            resolution := .r1080p, hasAudio := false, costUnit := .tokens, cost := .single 200 },
          { modelId := "veo-3-leo-std", modelName := "Veo 3 (via API)", maxDurationSec := 8,
            resolution := .r720p, hasAudio := false, costUnit := .tokens, cost := .single 2500 }] },
      { planName := "API Pro", monthlyCost := 299, quota := 100000, quotaUnit := .tokens,
        maxParallel := 5, maxParallelAPI := some 20, avgTimePerClipMin := 1.0,
        options := [
          { modelId := "leo-api-motion-1-p", modelName := "Motion 1.0", maxDurationSec := 3,
            resolution := .r720p, hasAudio := false, costUnit := .tokens, cost := .single 45 },
          { modelId := "leo-api-motion-2-p", modelName := "Motion 2.0", maxDurationSec := 5,
            resolution := .r1080p, hasAudio := false, costUnit := .tokens, cost := .single 200 },
          { modelId := "veo-3-leo-pro", modelName := "Veo 3 (via API)", maxDurationSec := 8,
            resolution := .r720p, hasAudio := false, costUnit := .tokens, cost := .single 2500 }] }] }

/-- LTX Studio platform. -/
def ltxStudio : Platform :=
  { platformName := "LTX Studio", apiAvailable := .enterprise, setupDays := 1,
    techLevel := .intermediate,
    plans := [
      { planName := "Lite (Monthly)", monthlyCost := 15, quota := 8640,
        quotaUnit := .compute_seconds, maxParallel := 1, avgTimePerClipMin := 4,
        options := [
          { modelId := "ltx-lite-m", modelName := "Motion Standard", maxDurationSec := 15,
            resolution := .r1080pPlus, hasAudio := true, costUnit := .ratioUnit, cost := .single 1 }] },
      { planName := "Lite (Annual)", monthlyCost := 12, quota := 8640,
        quotaUnit := .compute_seconds, maxParallel := 1, avgTimePerClipMin := 4,
        options := [
          { modelId := "ltx-lite-y", modelName := "Motion Standard", maxDurationSec := 15,
            resolution := .r1080pPlus, hasAudio := true, costUnit := .ratioUnit, cost := .single 1 }] },
      { planName := "Standard (Monthly)", monthlyCost := 35, quota := 28800,
        quotaUnit := .compute_seconds, maxParallel := 1, avgTimePerClipMin := 3.8,
        options := [
          { modelId := "ltx-std-m", modelName := "Motion Standard (Veo 2)", maxDurationSec := 15,
            resolution := .r1080pPlus, hasAudio := true, costUnit := .ratioUnit, cost := .single 1 }] },
      { planName := "Standard (Annual)", monthlyCost := 28, quota := 28800,
        quotaUnit := .compute_seconds, maxParallel := 1, avgTimePerClipMin := 3.8,
        options := [
          { modelId := "ltx-std-y", modelName := "Motion Standard (Veo 2)", maxDurationSec := 15,
            resolution := .r1080pPlus, hasAudio := true, costUnit := .ratioUnit, cost := .single 1 }] },
      { planName := "Pro (Monthly)", monthlyCost := 125, quota := 90000,
        quotaUnit := .compute_seconds, maxParallel := 10, avgTimePerClipMin := 3,
        options := [
          { modelId := "ltx-pro-m", modelName := "Pipeline Full (Veo 3)", maxDurationSec := 15,
            resolution := .r1080pPlus, hasAudio := true, costUnit := .ratioUnit,
            cost := .single 1.5, features := [.storyboardExport] }] },
      { planName := "Pro (Annual)", monthlyCost := 100, quota := 90000,
        quotaUnit := .compute_seconds, maxParallel := 10, avgTimePerClipMin := 3,
        options := [
          { modelId := "ltx-pro-y", modelName := "Pipeline Full (Veo 3)", maxDurationSec := 15,
            resolution := .r1080pPlus, hasAudio := true, costUnit := .ratioUnit,
            cost := .single 1.5, features := [.storyboardExport] }] },
      { planName := "Enterprise", monthlyCost := 500, quota := 500000,
        quotaUnit := .compute_seconds, maxParallel := 20, avgTimePerClipMin := 2.5,
        options := [
          { modelId := "ltx-ent", modelName := "Pipeline Full (Veo 3)", maxDurationSec := 15,
            resolution := .r4K, hasAudio := true, costUnit := .ratioUnit,
            cost := .single 2, features := [.storyboardExport] }] }] }

/-- OpenAI Sora / Plus / "Standard 10s" option. -/
def soraPlus10 : MediaOption :=
  { modelId := "sora-plus-10", modelName := "Standard 10s", maxDurationSec := 10,
    resolution := .r720p, hasAudio := false, costUnit := .clips, cost := .single 0 }

/-- OpenAI Sora "Plus" plan (flat-fee unlimited). -/
def soraPlusPlan : Plan :=
  { planName := "Plus", monthlyCost := 20, quota := 0, quotaUnit := .unlimited,
    maxParallel := 2, avgTimePerClipMin := 1.5, options := [soraPlus10] }

/-- OpenAI Sora platform. -/
def openAISora : Platform :=
  { platformName := "OpenAI Sora", apiAvailable := .limited, setupDays := 0.5,
    techLevel := .beginner,
    plans := [soraPlusPlan,
      { planName := "Pro", monthlyCost := 200, quota := 0, quotaUnit := .unlimited,
        maxParallel := 5, maxParallelAPI := some 5, avgTimePerClipMin := 0.8,
        options := [
          { modelId := "sora-pro-20", modelName := "Enhanced Quality 20s", maxDurationSec := 20,
            resolution := .r1080p, hasAudio := false, costUnit := .clips, cost := .single 0 }] }] }

/-- Google Veo platform. -/
def googleVeo : Platform :=
  { platformName := "Google Veo", apiAvailable := .yes, setupDays := 1,
    techLevel := .expert,
    plans := [
      { planName := "Ultra Subscription", monthlyCost := 250, quota := 12500,
        quotaUnit := .credits, maxParallel := 5, avgTimePerClipMin := 0.8,
        options := [
          { modelId := "veo-ultra-fast", modelName := "Veo 3 Fast", maxDurationSec := 8,
            resolution := .r1080p, hasAudio := true, costUnit := .credits,
            cost := .single 20, features := [.audioVideoSync] },
          { modelId := "veo-ultra-qual", modelName := "Veo 3 Quality", maxDurationSec := 8,
            resolution := .r1080p, hasAudio := true, costUnit := .credits,
            cost := .single 100, features := [.audioVideoSync] }] },
      { planName := "Vertex AI API", monthlyCost := 0, quota := 0, quotaUnit := .unlimited,
        maxParallel := 1, maxParallelAPI := some 20, avgTimePerClipMin := 1.8,
        options := [
          { modelId := "veo-api-2.0", modelName := "Veo 2.0 GA", maxDurationSec := 8,
            resolution := .r720p, hasAudio := false, costUnit := .per_second, cost := .single 0.5 },
          { modelId := "veo-api-3.0", modelName := "Veo 3.0 Preview", maxDurationSec := 8,
            resolution := .r720p, hasAudio := false, costUnit := .per_second, cost := .single 0.5 },
          { modelId := "veo-api-3.0-snd", modelName := "Veo 3.0 with Audio", maxDurationSec := 8,
            resolution := .r720p, hasAudio := true, costUnit := .per_second,
            cost := .single 0.75, features := [.audioVideoSync] }] }] }

/-- `DETAILED_PLATFORM_DATA`: the full catalog. -/
def DETAILED_PLATFORM_DATA : List Platform :=
  [klingAI, leoWebApp, leoAPI, ltxStudio, openAISora, googleVeo]

/-! ### The engine's helper functions (source lines 293-367). -/

/-- `getAverage` (line 313): a number, or the mean of a 2-element interval. -/
def getAverage : CostSpec → ℚ
  | .single q => q
  | .range lo hi => (lo + hi) / 2

/-- `resolutionScores` (line 295).  The `|| 6` fallback of the source is
unreachable: `resolution` is typed as one of the four listed values. -/
def resolutionScores : Resolution → ℚ
  | .r720p => 7
  | .r1080p => 8
  | .r1080pPlus => 9
  | .r4K => 10

/-- JavaScript `table[key] || 0` for a string-keyed constant table: the
looked-up value, or `0` when the key is absent (a stored `0` is falsy in JS,
so it is also read back as `0`, which agrees with `lookupQ`). -/
def lookupQ (key : String) : List (String × ℚ) → ℚ
  | [] => 0
  | (k, v) :: rest => if key = k then v else lookupQ key rest

/-- `planHierarchy` table (line 300). -/
def planHierarchyTable : List (String × ℚ) :=
  [("Personal", 0), ("Lite (Annual)", 0), ("Lite (Monthly)", 0), ("Plus", 0),
   ("Apprentice", 0), ("Standard (Annual)", 0.5), ("Standard (Monthly)", 0.5),
   ("Artisan Unlimited", 0.5), ("API Basic", 0.5), ("Pro (Annual)", 1),
   ("Pro (Monthly)", 1), ("Maestro Unlimited", 1), ("API Standard", 1),
   ("Premier", 1.5), ("Team", 1.5), ("API Pro", 1.5), ("Vertex AI API", 2),
   ("Ultra Subscription", 2), ("Enterprise", 2)]

/-- `platformReputation` table (line 307). -/
def platformReputationTable : List (String × ℚ) :=
  [("Google Veo", 1.5), ("OpenAI Sora", 1), ("LTX Studio", 0.5),
   ("Leonardo AI (API)", 0), ("Leonardo AI (Web App)", 0), ("Kling AI", -0.5)]

/-- `getQualityScore` (lines 293-311). -/
def getQualityScore (opt : MediaOption) (plan : Plan) (platform : Platform) : ℚ :=
  let s1 := resolutionScores opt.resolution
  let s2 := s1 + (if opt.hasAudio then 0.5 else 0)
  let s3 := s2 + lookupQ plan.planName planHierarchyTable
  let s4 := s3 + (if Feature.storyboardExport ∈ opt.features then 1 else 0)
  let s5 := s4 + (if Feature.keyframeEditor ∈ opt.features then 0.5 else 0)
  let s6 := s5 + (if Feature.audioVideoSync ∈ opt.features then 1 else 0)
  let s7 := s6 + lookupQ platform.platformName platformReputationTable
  min 10 s7

/-- `canUseAPI` (line 322): API tier is Yes, Limited or Enterprise and the
user is expert or intermediate. -/
def canUseAPI (platform : Platform) (expertise : Expertise) : Bool :=
  (platform.apiAvailable = ApiTier.yes ∨ platform.apiAvailable = ApiTier.limited ∨
    platform.apiAvailable = ApiTier.enterprise) ∧
  (expertise = Expertise.expert ∨ expertise = Expertise.intermediate)

/-- `canUseAPI && plan.maxParallelAPI ? plan.maxParallelAPI : plan.maxParallel`
(line 323): JS truthiness — `undefined` and `0` are falsy. -/
def effectiveParallel (plan : Plan) (canUse : Bool) : ℚ :=
  match plan.maxParallelAPI with
  | some v => if canUse = true ∧ v ≠ 0 then v else plan.maxParallel
  | _ => plan.maxParallel

/-- Result record of `calculateTimeRequirement`. -/
structure TimeReq where
  timeDays : ℚ
  accountsNeeded : ℚ
deriving DecidableEq, Repr

/-- `calculateTimeRequirement` (lines 317-343). -/
def calculateTimeRequirement (durationMinutes : ℚ) (opt : MediaOption) (plan : Plan)
    (platform : Platform) (deadline : ℚ) (expertise : Expertise) : TimeReq :=
  if durationMinutes ≤ 0 then { timeDays := 0, accountsNeeded := 1 }
  else
    let clipsNeeded : ℤ := ⌈durationMinutes * 60 / opt.maxDurationSec⌉
    let effectiveMaxParallel := effectiveParallel plan (canUseAPI platform expertise)
    let totalWorkloadMinutes := (clipsNeeded : ℚ) * plan.avgTimePerClipMin
    let totalWorkloadHours := totalWorkloadMinutes / 60
    let singleAccountTimeHours := totalWorkloadHours / effectiveMaxParallel
    let singleAccountTimeDays := singleAccountTimeHours / 8 + platform.setupDays
    let accountsNeeded : ℚ :=
      if deadline < singleAccountTimeDays then ((⌈singleAccountTimeDays / deadline⌉ : ℤ) : ℚ)
      else 1
    { timeDays := singleAccountTimeDays / accountsNeeded, accountsNeeded := accountsNeeded }

/-- `calculateCostPerSecondUSD` (lines 345-367).  The final `.inf` is the
`switch` statement's `default: return Infinity`, reached for the
`compute_seconds` unit (the `per_second` row of the inner match is dead code:
that unit already returned in the first branch). -/
def calculateCostPerSecondUSD (opt : MediaOption) (plan : Plan) : ERat :=
  let avgCostPerUnit := getAverage opt.cost
  let durationSeconds := opt.maxDurationSec
  if opt.costUnit = CostUnit.per_second then .fin avgCostPerUnit
  else if plan.quotaUnit = QuotaUnit.unlimited ∨ plan.quota = 0 then .inf
  else
    let costPerUnitUSD := plan.monthlyCost / plan.quota
    match opt.costUnit with
    | .credits | .tokens | .clips => .fin (avgCostPerUnit * costPerUnitUSD / durationSeconds)
    | .ratioUnit => .fin (avgCostPerUnit * costPerUnitUSD)
    | _ => .inf

/-! ### The per-triple computation of `calculate` (source lines 375-509). -/

/-- `Math.ceil(duration * 60 / option.maxDurationSec)` (lines 320, 386). -/
def clipsNeededFor (durationMinutes maxDurationSec : ℚ) : ℤ :=
  ⌈durationMinutes * 60 / maxDurationSec⌉

/-- `totalUnitsNeeded` of the cost-mode quota branch (lines 396-401). -/
def totalUnitsNeededFor (opt : MediaOption) (durationMinutes : ℚ) : ℚ :=
  if opt.costUnit = CostUnit.ratioUnit then durationMinutes * 60 * getAverage opt.cost
  else (clipsNeededFor durationMinutes opt.maxDurationSec : ℚ) * getAverage opt.cost

/-- `plansNeeded = Math.ceil(totalUnitsNeeded / plan.quota)` (line 402). -/
def plansNeededFor (opt : MediaOption) (plan : Plan) (durationMinutes : ℚ) : ℤ :=
  ⌈totalUnitsNeededFor opt durationMinutes / plan.quota⌉

/-- Cost-mode `result.totalCost` (lines 388-407). -/
def costModeTotalCost (opt : MediaOption) (plan : Plan) (durationMinutes : ℚ) : ERat :=
  if plan.quotaUnit = QuotaUnit.unlimited then
    if opt.costUnit = CostUnit.per_second then
      .fin (durationMinutes * 60 * getAverage opt.cost)
    else .fin plan.monthlyCost
  else if 0 < plan.quota then
    .fin ((plansNeededFor opt plan durationMinutes : ℚ) * plan.monthlyCost)
  else .inf

/-- What the duration-mode block (lines 417-451) writes into `result`:
achievable raw video seconds, `totalCost` (initialized to `budget` at line
417 and possibly overwritten) and `plansAffordable`. -/
structure DurationOutcome where
  totalVideoSeconds : ERat
  totalCost : ℚ
  plansAffordable : Option ℤ
deriving DecidableEq, Repr

/-- Duration-mode computation of lines 417-451. -/
def durationModeOutcome (opt : MediaOption) (plan : Plan) (budget : ℚ) : DurationOutcome :=
  if plan.quotaUnit = QuotaUnit.unlimited then
    if opt.costUnit = CostUnit.per_second then
      if 0 < budget ∧ 0 < getAverage opt.cost then
        { totalVideoSeconds := .fin (budget / getAverage opt.cost), totalCost := budget,
          plansAffordable := Option.none }
      else
        { totalVideoSeconds := .fin 0, totalCost := budget, plansAffordable := Option.none }
    else
      if plan.monthlyCost ≤ budget then
        { totalVideoSeconds := .inf, totalCost := plan.monthlyCost,
          plansAffordable := Option.none }
      else
        { totalVideoSeconds := .fin 0, totalCost := budget, plansAffordable := Option.none }
  else
    if 0 < plan.monthlyCost then
      let plansAffordable : ℤ := ⌊budget / plan.monthlyCost⌋
      if 0 < plansAffordable then
        let totalQuota := (plansAffordable : ℚ) * plan.quota
        let costPerClip := getAverage opt.cost
        let tvs : ERat :=
          if 0 < costPerClip then
            if opt.costUnit = CostUnit.ratioUnit then .fin (totalQuota / costPerClip)
            else .fin (totalQuota / costPerClip * opt.maxDurationSec)
          else .fin 0
        { totalVideoSeconds := tvs, totalCost := (plansAffordable : ℚ) * plan.monthlyCost,
          plansAffordable := some plansAffordable }
      else
        { totalVideoSeconds := .fin 0, totalCost := budget, plansAffordable := Option.none }
    else
      { totalVideoSeconds := .fin 0, totalCost := budget, plansAffordable := Option.none }

/-- The deadline-derived throughput ceiling of lines 453-456:
`maxClipsInDeadline * option.maxDurationSec / 60`. -/
def maxDurationFromTime (plan : Plan) (opt : MediaOption) (platform : Platform)
    (deadline : ℚ) (expertise : Expertise) : ℚ :=
  let effectiveMaxParallel := effectiveParallel plan (canUseAPI platform expertise)
  let maxClipsInDeadline := deadline * 8 * 60 / plan.avgTimePerClipMin * effectiveMaxParallel
  maxClipsInDeadline * opt.maxDurationSec / 60

/-- `Math.min(totalVideoSeconds / 60, maxDurationFromTime)` (line 457);
`Math.min(Infinity, x) = x` for every non-`NaN` x. -/
def achievableFromSeconds (tvs : ERat) (mdt : ℚ) : ℚ :=
  match tvs with
  | .fin s => min (s / 60) mdt
  | .inf => mdt

/-- `expertiseMatch[expertise][platform.techLevel]` (lines 472-477); every
table entry is present and non-zero, so the `|| 0` fallback never fires. -/
def expertiseMatch : Expertise → Expertise → ℚ
  | .beginner, .beginner => 20
  | .beginner, .intermediate => 5
  | .beginner, .expert => -10
  | .intermediate, .beginner => 10
  | .intermediate, .intermediate => 20
  | .intermediate, .expert => 10
  | .expert, .beginner => -5
  | .expert, .intermediate => 10
  | .expert, .expert => 20

/-- Feasibility policy of line 467:
`(reasons.length === 0) || (reasons.length === 1 && reasons[0].includes('accounts'))`. -/
def feasibleOf : List Reason → Bool
  | [] => true
  | [r] => r.includesAccounts
  | _ => false

/-- The composite-score accumulation of lines 469-491, as a function of the
already-computed per-triple quantities. -/
def compositeScore (inp : RecommendationInputs) (platform : Platform) (plan : Plan)
    (opt : MediaOption) (feasible : Bool) (accountsNeeded : ℚ) (cpS : ERat)
    (qualityScore achievableDuration : ℚ) : ℚ :=
  let s1 : ℚ := if feasible = true then 50 else 0
  let s2 := if 1 < accountsNeeded ∧ feasible = true then s1 - accountsNeeded * 2 else s1
  let s3 := s2 + expertiseMatch inp.expertise platform.techLevel
  let s4 := s3 +
    (match inp.audioNeeds with
     | .advanced => if opt.hasAudio then 15 else -25
     | .basic => if opt.hasAudio then 5 else -5
     | .none => 0)
  let effectiveMaxParallel :=
    match plan.maxParallelAPI with
    | some v =>
        if platform.apiAvailable = ApiTier.yes ∧ inp.expertise ≠ Expertise.beginner ∧ v ≠ 0
        then v else plan.maxParallel
    | _ => plan.maxParallel
  let s5 := s4 + effectiveMaxParallel * 0.5 * (inp.speedCost / 100)
  let qualityWeight := inp.costQuality / 100
  let costScore : ℚ :=
    match cpS with
    | .fin c => if 0 < c then max 0 (1 - c / 5) * 15 else 15
    | .inf => 15
  let s6 := s5 + costScore * (1 - qualityWeight) + qualityScore / 10 * 15 * qualityWeight
  if inp.calcMode = CalcMode.duration ∧ 0 < achievableDuration then
    s6 + min 20 (achievableDuration / 2)
  else s6

/-- One loop-body iteration of `calculate` (lines 375-509): the
`ScoredPlatform` pushed for a given (platform, plan, option) triple. -/
def scoreTriple (inp : RecommendationInputs) (platform : Platform) (plan : Plan)
    (opt : MediaOption) : ScoredPlatform :=
  let qualityScore := getQualityScore opt plan platform
  let cpS := calculateCostPerSecondUSD opt plan
  match inp.calcMode with
  | .cost =>
    let totalCost := costModeTotalCost opt plan inp.duration
    let timeReq := calculateTimeRequirement inp.duration opt plan platform inp.deadline inp.expertise
    let reasons :=
      (if inp.deadline < timeReq.timeDays
       then [Reason.requiresAccounts timeReq.accountsNeeded] else [])
      ++ (if ERat.ltb (.fin inp.budget) totalCost then [Reason.overBudget] else [])
    { platformName := platform.platformName, planName := plan.planName, option := opt,
      score := compositeScore inp platform plan opt (feasibleOf reasons)
        timeReq.accountsNeeded cpS qualityScore inp.duration,
      totalCost := totalCost, rawGenerationTimeDays := timeReq.timeDays,
      costPerSecondUSD := cpS, qualityScore := qualityScore,
      feasible := feasibleOf reasons, reasons := reasons,
      accountsNeeded := timeReq.accountsNeeded, apiAvailable := platform.apiAvailable,
      achievableDuration := inp.duration, plansAffordable := Option.none,
      monthlyCost := plan.monthlyCost }
  | .duration =>
    let out := durationModeOutcome opt plan inp.budget
    let mdt := maxDurationFromTime plan opt platform inp.deadline inp.expertise
    let achievableDuration := achievableFromSeconds out.totalVideoSeconds mdt
    let timeReq :=
      calculateTimeRequirement achievableDuration opt plan platform inp.deadline inp.expertise
    let reasons :=
      if inp.deadline < timeReq.timeDays ∧ 0 < achievableDuration
      then [Reason.challengingDeadline timeReq.accountsNeeded] else []
    { platformName := platform.platformName, planName := plan.planName, option := opt,
      score := compositeScore inp platform plan opt (feasibleOf reasons)
        timeReq.accountsNeeded cpS qualityScore achievableDuration,
      totalCost := .fin out.totalCost, rawGenerationTimeDays := timeReq.timeDays,
      costPerSecondUSD := cpS, qualityScore := qualityScore,
      feasible := feasibleOf reasons, reasons := reasons,
      accountsNeeded := timeReq.accountsNeeded, apiAvailable := platform.apiAvailable,
      achievableDuration := achievableDuration, plansAffordable := out.plansAffordable,
      monthlyCost := plan.monthlyCost }

/-- The full cross-product loop of `calculate` (lines 373-512). -/
def scoredOptions (inp : RecommendationInputs) : List ScoredPlatform :=
  DETAILED_PLATFORM_DATA.flatMap fun platform =>
    platform.plans.flatMap fun plan =>
      plan.options.map fun opt => scoreTriple inp platform plan opt

/-- The sort comparator of lines 514-517 read as "a may stand (weakly) before
b", i.e. `comparator(a, b) <= 0`: when the feasibility flags differ the
feasible entry comes first, otherwise the higher score comes first. -/
def rankLEb (a b : ScoredPlatform) : Bool :=
  if a.feasible = b.feasible then b.score ≤ a.score else a.feasible

/-- `rankLEb` as a relation. -/
def rankLE (a b : ScoredPlatform) : Prop := rankLEb a b = true

instance : DecidableRel rankLE := fun a b => instDecidableEqBool (rankLEb a b) true

/-- `scoredOptions.sort(comparator)` (lines 514-517): a stable sort by the
comparator; modelled by insertion sort, which is stable and sorts by
`rankLE`. -/
def sortedPlatforms (inp : RecommendationInputs) : List ScoredPlatform :=
  List.insertionSort rankLE (scoredOptions inp)

/-- `scoredOptions.find(p => p.feasible) || scoredOptions[0] || null`
(line 520): the first feasible entry of the ranked list, else its head,
else `none`. -/
def primaryRecommendation (inp : RecommendationInputs) : Option ScoredPlatform :=
  ((sortedPlatforms inp).find? fun e => e.feasible) <|> (sortedPlatforms inp).head?

/-! ### Claims -/

/-- The spec's cost-mode worked scenario: cost mode, duration 10 min,
deadline 7, budget 1000, beginner, no audio need. -/
def inputsC5 : RecommendationInputs :=
  { calcMode := .cost, deadline := 7, duration := 10, budget := 1000,
    costQuality := 50, speedCost := 50, audioNeeds := .none,
    expertise := .beginner, enableComparison := false,
    traditionalCost := 3500, traditionalTime := 14 }

/-- C5: in cost mode with duration = 10 min, the Kling AI Standard 5s triple
(plan monthlyCost 10, quota 660 credits; option cost 10 credits, 5 s clips)
computes clipsNeeded = 120, totalUnitsNeeded = 1200, plansNeeded =
ceil(1200/660) = 2 and totalCost = 20 USD. -/
theorem claim_C5 :
    clipsNeededFor inputsC5.duration klingStd5s.maxDurationSec = 120 ∧
    totalUnitsNeededFor klingStd5s inputsC5.duration = 1200 ∧
    plansNeededFor klingStd5s klingStandardPlan inputsC5.duration = 2 ∧
    (scoreTriple inputsC5 klingAI klingStandardPlan klingStd5s).totalCost = ERat.fin 20 := by
  have h1 : ⌈(10:ℚ) * 60 / 5⌉ = 120 := by rw [Int.ceil_eq_iff]; norm_num
  have h2 : ⌈(120:ℚ) * 10 / 660⌉ = 2 := by rw [Int.ceil_eq_iff]; norm_num
  refine ⟨?_, ?_, ?_, ?_⟩
  · simp [clipsNeededFor, inputsC5, klingStd5s, h1]
  · simp [totalUnitsNeededFor, clipsNeededFor, inputsC5, klingStd5s, getAverage, h1]
    norm_num
  · simp [plansNeededFor, totalUnitsNeededFor, clipsNeededFor, inputsC5, klingStd5s,
      klingStandardPlan, getAverage, h1, h2]
  · simp [scoreTriple, inputsC5, costModeTotalCost, plansNeededFor, totalUnitsNeededFor,
      klingStd5s, klingStandardPlan, clipsNeededFor, getAverage, h1, h2]
    norm_num

/-- C7: the normalized cost per second is non-negative whenever the catalog
data is well-formed (non-negative costs and monthly price, positive clip
duration, non-negative quota), and for a per-second cost unit it equals
`averageOf(option.cost)` exactly, for every plan. -/
theorem claim_C7 (opt : MediaOption) (plan : Plan)
    (hc : 0 ≤ getAverage opt.cost) (hm : 0 ≤ plan.monthlyCost)
    (hd : 0 < opt.maxDurationSec) (hq : 0 ≤ plan.quota) :
    ERat.leb (ERat.fin 0) (calculateCostPerSecondUSD opt plan) = true ∧
    (opt.costUnit = CostUnit.per_second →
      calculateCostPerSecondUSD opt plan = ERat.fin (getAverage opt.cost)) := by
  constructor
  · unfold calculateCostPerSecondUSD
    split_ifs with h1 h2
    · simpa [ERat.leb] using hc
    · simp [ERat.leb]
    · have hq0 : plan.quota ≠ 0 := by tauto
      have hq' : (0:ℚ) < plan.quota := lt_of_le_of_ne hq (Ne.symm hq0)
      cases hco : opt.costUnit
      · simpa [ERat.leb] using
          div_nonneg (mul_nonneg hc (div_nonneg hm hq'.le)) hd.le
      · simpa [ERat.leb] using
          div_nonneg (mul_nonneg hc (div_nonneg hm hq'.le)) hd.le
      · simp [ERat.leb]
      · simpa [ERat.leb] using
          div_nonneg (mul_nonneg hc (div_nonneg hm hq'.le)) hd.le
      · exact absurd hco h1
      · simpa [ERat.leb] using mul_nonneg hc (div_nonneg hm hq'.le)
  · intro h
    simp [calculateCostPerSecondUSD, h]

/-- Witness for C7 at the Kling AI Standard 5s triple. -/
theorem claim_C7_witness :
    ERat.leb (ERat.fin 0) (calculateCostPerSecondUSD klingStd5s klingStandardPlan) = true ∧
    (klingStd5s.costUnit = CostUnit.per_second →
      calculateCostPerSecondUSD klingStd5s klingStandardPlan =
        ERat.fin (getAverage klingStd5s.cost)) :=
  claim_C7 klingStd5s klingStandardPlan (by norm_num [getAverage, klingStd5s])
    (by norm_num [klingStandardPlan]) (by norm_num [klingStd5s])
    (by norm_num [klingStandardPlan])

/-- A `table[key] || 0` lookup is bounded below by any non-positive bound
that bounds every stored value. -/
theorem lookupQ_ge (b : ℚ) (key : String) (table : List (String × ℚ))
    (hb : b ≤ 0) (h : ∀ p ∈ table, b ≤ p.2) : b ≤ lookupQ key table := by
  induction table with
  | nil => simpa [lookupQ] using hb
  | cons p rest ih =>
      obtain ⟨k, v⟩ := p
      by_cases hk : key = k
      · simpa [lookupQ, hk] using h (k, v) (by simp)
      · simpa [lookupQ, hk] using ih fun q hq => h q (by simp [hq])

/-- Every resolution contributes at least 7 points. -/
theorem resolutionScores_ge (r : Resolution) : 7 ≤ resolutionScores r := by
  cases r <;> norm_num [resolutionScores]

/-- The quality score of any (option, plan, platform) is at least 6.5: the
resolution base is at least 7, every other addend is non-negative except the
platform-reputation entry, whose least value is -0.5. -/
theorem qualityScore_lower (opt : MediaOption) (plan : Plan) (platform : Platform) :
    13/2 ≤ getQualityScore opt plan platform := by
  have h1 := resolutionScores_ge opt.resolution
  have h2 : (0:ℚ) ≤ if opt.hasAudio then (0.5:ℚ) else 0 := by split <;> norm_num
  have h3 : (0:ℚ) ≤ lookupQ plan.planName planHierarchyTable :=
    lookupQ_ge 0 _ _ le_rfl fun p hp => by fin_cases hp <;> norm_num
  have h4 : (0:ℚ) ≤ if Feature.storyboardExport ∈ opt.features then (1:ℚ) else 0 := by
    split <;> norm_num
  have h5 : (0:ℚ) ≤ if Feature.keyframeEditor ∈ opt.features then (0.5:ℚ) else 0 := by
    split <;> norm_num
  have h6 : (0:ℚ) ≤ if Feature.audioVideoSync ∈ opt.features then (1:ℚ) else 0 := by
    split <;> norm_num
  have h7 : -(1/2 : ℚ) ≤ lookupQ platform.platformName platformReputationTable :=
    lookupQ_ge (-(1/2)) _ _ (by norm_num) fun p hp => by fin_cases hp <;> norm_num
  simp only [getQualityScore]
  refine le_min (by norm_num) ?_
  linarith

/-- All (platform, plan, option) triples of the catalog, in engine order. -/
def allCatalogTriples : List (Platform × Plan × MediaOption) :=
  DETAILED_PLATFORM_DATA.flatMap fun platform =>
    platform.plans.flatMap fun plan =>
      plan.options.map fun opt => (platform, plan, opt)

/-- C9, amended: the quality score is clamped to a ceiling of 10 and the code
has no floor clamp, but the score can never be negative: it is bounded below
by 6.5 for every option, plan and platform (so in particular it is never
negative for low-tier beginner platforms without reputation credit). -/
theorem claim_C9 (opt : MediaOption) (plan : Plan) (platform : Platform) :
    getQualityScore opt plan platform ≤ 10 ∧
    13/2 ≤ getQualityScore opt plan platform := by
  constructor
  · simp only [getQualityScore]
    exact min_le_left _ _
  · exact qualityScore_lower opt plan platform

/-- Counterexample to C9 as stated: the claim asserts some input (a low-tier
beginner platform without reputation credit) yields a negative score, but
every triple the engine can ever pass to the scorer — the full catalog
cross-product — scores at least 0 (indeed at least 6.5), so no such input
exists. -/
theorem claim_C9_counterexample :
    (allCatalogTriples.all fun t => decide (0 ≤ getQualityScore t.2.2 t.2.1 t.1)) = true :=
  List.all_eq_true.mpr fun t _ =>
    decide_eq_true (le_trans (by norm_num) (qualityScore_lower t.2.2 t.2.1 t.1))

/-- The feasibility test of line 467, characterised: true exactly for an
empty reason list or a single reason that mentions accounts. -/
theorem feasibleOf_iff (rs : List Reason) :
    feasibleOf rs = true ↔
      (rs = [] ∨ ∃ r, rs = [r] ∧ Reason.includesAccounts r = true) := by
  match rs with
  | [] => simp [feasibleOf]
  | [r] => simp [feasibleOf]
  | a :: b :: rest => simp [feasibleOf]

/-- A reason list containing "Over budget" is never feasible. -/
theorem feasibleOf_overBudget (rs : List Reason) (h : Reason.overBudget ∈ rs) :
    feasibleOf rs = false := by
  match rs with
  | [] => cases h
  | [r] =>
      rcases List.mem_singleton.mp h with rfl
      simp [feasibleOf, Reason.includesAccounts]
  | a :: b :: rest => simp [feasibleOf]

/-- The `feasible` field the engine emits is exactly the line-467 policy
applied to the emitted reason list. -/
theorem scoreTriple_feasible_eq (inp : RecommendationInputs) (platform : Platform)
    (plan : Plan) (opt : MediaOption) :
    (scoreTriple inp platform plan opt).feasible =
      feasibleOf (scoreTriple inp platform plan opt).reasons := by
  unfold scoreTriple
  cases inp.calcMode <;> simp

/-- C1: for every emitted triple, `feasible` is true iff the reasons list is
empty or is a single reason mentioning accounts; in particular any triple
whose reasons include "Over budget" is infeasible, and a triple whose only
reason is the needs-N-accounts reason is feasible. -/
theorem claim_C1 (inp : RecommendationInputs) (platform : Platform) (plan : Plan)
    (opt : MediaOption) :
    ((scoreTriple inp platform plan opt).feasible = true ↔
      ((scoreTriple inp platform plan opt).reasons = [] ∨
        ∃ r, (scoreTriple inp platform plan opt).reasons = [r] ∧
          Reason.includesAccounts r = true)) ∧
    (Reason.overBudget ∈ (scoreTriple inp platform plan opt).reasons →
      (scoreTriple inp platform plan opt).feasible = false) ∧
    (∀ n : ℚ, (scoreTriple inp platform plan opt).reasons = [Reason.requiresAccounts n] →
      (scoreTriple inp platform plan opt).feasible = true) := by
  have hfe := scoreTriple_feasible_eq inp platform plan opt
  refine ⟨?_, ?_, ?_⟩
  · rw [hfe]; exact feasibleOf_iff _
  · intro hm; rw [hfe]; exact feasibleOf_overBudget _ hm
  · intro n hn; rw [hfe, hn]; simp [feasibleOf, Reason.includesAccounts]

/-- Over-budget witness input for C1: cost mode with budget 0. -/
def inputsC1A : RecommendationInputs :=
  { calcMode := .cost, deadline := 7, duration := 10, budget := 0,
    costQuality := 50, speedCost := 50, audioNeeds := .none,
    expertise := .beginner, enableComparison := false,
    traditionalCost := 3500, traditionalTime := 14 }

/-- Accounts-only witness input for C1: cost mode with zero target duration
and a negative deadline, so `timeDays = 0 > deadline` pushes the single
"Requires 1 accounts" reason while the zero workload stays within budget. -/
def inputsC1B : RecommendationInputs :=
  { calcMode := .cost, deadline := -1, duration := 0, budget := 100,
    costQuality := 50, speedCost := 50, audioNeeds := .none,
    expertise := .beginner, enableComparison := false,
    traditionalCost := 3500, traditionalTime := 14 }

/-- Witness for C1: the over-budget triple is infeasible, the accounts-only
triple is feasible. -/
theorem claim_C1_witness :
    (scoreTriple inputsC1A klingAI klingStandardPlan klingStd5s).feasible = false ∧
    (scoreTriple inputsC1B klingAI klingStandardPlan klingStd5s).feasible = true := by
  constructor
  · refine (claim_C1 inputsC1A klingAI klingStandardPlan klingStd5s).2.1 ?_
    have h1 : ⌈(10:ℚ) * 60 / 5⌉ = 120 := by rw [Int.ceil_eq_iff]; norm_num
    have h2 : ⌈(120:ℚ) * 10 / 660⌉ = 2 := by rw [Int.ceil_eq_iff]; norm_num
    simp [scoreTriple, inputsC1A, costModeTotalCost, plansNeededFor, totalUnitsNeededFor,
      clipsNeededFor, getAverage, klingStd5s, klingStandardPlan, klingAI,
      calculateTimeRequirement, canUseAPI, effectiveParallel, ERat.ltb, ERat.leb,
      h1, h2]
  · refine (claim_C1 inputsC1B klingAI klingStandardPlan klingStd5s).2.2 1 ?_
    simp [scoreTriple, inputsC1B, costModeTotalCost, plansNeededFor, totalUnitsNeededFor,
      clipsNeededFor, getAverage, klingStd5s, klingStandardPlan, klingAI,
      calculateTimeRequirement, canUseAPI, effectiveParallel, ERat.ltb, ERat.leb]

/-- Splitting a workload that overshoots the deadline across
`ceil(s / d)` accounts brings the per-account time back under `d`. -/
theorem div_ceil_le (s d : ℚ) (hd : 0 < d) (hlt : d < s) :
    s / ((⌈s / d⌉ : ℤ) : ℚ) ≤ d := by
  have hs : 0 < s := hd.trans hlt
  have h1 : s / d ≤ ((⌈s / d⌉ : ℤ) : ℚ) := Int.le_ceil _
  have h3 : (0:ℚ) < ((⌈s / d⌉ : ℤ) : ℚ) := (div_pos hs hd).trans_le h1
  rw [div_le_iff h3, mul_comm]
  exact (div_le_iff hd).mp h1

/-- The time estimator never reports more days than the deadline, for any
positive deadline. -/
theorem calculateTimeRequirement_timeDays_le (durationMinutes : ℚ) (opt : MediaOption)
    (plan : Plan) (platform : Platform) (deadline : ℚ) (expertise : Expertise)
    (hd : 0 < deadline) :
    (calculateTimeRequirement durationMinutes opt plan platform deadline
      expertise).timeDays ≤ deadline := by
  simp only [calculateTimeRequirement]
  split_ifs with h0 hacc
  · simpa using hd.le
  · simpa using div_ceil_le _ _ hd hacc
  · simpa using not_lt.mp hacc

/-- `x <= y` is the negation of `y < x` on possibly-infinite values. -/
theorem ERat.leb_eq_not_ltb (x y : ERat) : ERat.leb x y = !(ERat.ltb y x) := by
  simp [ERat.ltb]

/-- C3: with a positive deadline the estimator's `timeDays` never exceeds
the deadline, so the accounts-needed reason branches (cost mode's
"Requires N accounts" and duration mode's "Challenging deadline") are
unreachable — the emitted reasons are `[]` or `["Over budget"]` — and a
cost-mode triple is feasible exactly when its total cost is within budget. -/
theorem claim_C3 (inp : RecommendationInputs) (platform : Platform) (plan : Plan)
    (opt : MediaOption) (hdl : 0 < inp.deadline) :
    (∀ durationMinutes : ℚ,
      (calculateTimeRequirement durationMinutes opt plan platform inp.deadline
        inp.expertise).timeDays ≤ inp.deadline) ∧
    ((scoreTriple inp platform plan opt).reasons = [] ∨
      (scoreTriple inp platform plan opt).reasons = [Reason.overBudget]) ∧
    (inp.calcMode = CalcMode.cost →
      ((scoreTriple inp platform plan opt).feasible = true ↔
        ERat.leb (scoreTriple inp platform plan opt).totalCost (ERat.fin inp.budget) = true)) := by
  have hble : ∀ dm : ℚ,
      (calculateTimeRequirement dm opt plan platform inp.deadline inp.expertise).timeDays ≤
        inp.deadline :=
    fun dm => calculateTimeRequirement_timeDays_le dm opt plan platform inp.deadline
      inp.expertise hdl
  refine ⟨hble, ?_, ?_⟩
  · cases hmode : inp.calcMode
    · have hnot := not_lt.mpr (hble inp.duration)
      by_cases hob : ERat.ltb (ERat.fin inp.budget) (costModeTotalCost opt plan inp.duration) = true
      · right; simp [scoreTriple, hmode, hnot, hob]
      · left; simp [scoreTriple, hmode, hnot, hob]
    · have hnot := not_lt.mpr (hble (achievableFromSeconds
        (durationModeOutcome opt plan inp.budget).totalVideoSeconds
        (maxDurationFromTime plan opt platform inp.deadline inp.expertise)))
      left; simp [scoreTriple, hmode, hnot]
  · intro hc
    have hnot := not_lt.mpr (hble inp.duration)
    rw [ERat.leb_eq_not_ltb]
    by_cases hob : ERat.ltb (ERat.fin inp.budget) (costModeTotalCost opt plan inp.duration) = true
    · simp [scoreTriple, hc, hnot, hob, feasibleOf, Reason.includesAccounts]
    · simp [scoreTriple, hc, hnot, hob, feasibleOf]

/-- Witness for C3 at the cost-mode scenario inputs (deadline 7 > 0). -/
theorem claim_C3_witness :
    (calculateTimeRequirement 10 klingStd5s klingStandardPlan klingAI inputsC5.deadline
      inputsC5.expertise).timeDays ≤ inputsC5.deadline ∧
    ((scoreTriple inputsC5 klingAI klingStandardPlan klingStd5s).reasons = [] ∨
      (scoreTriple inputsC5 klingAI klingStandardPlan klingStd5s).reasons =
        [Reason.overBudget]) ∧
    ((scoreTriple inputsC5 klingAI klingStandardPlan klingStd5s).feasible = true ↔
      ERat.leb (scoreTriple inputsC5 klingAI klingStandardPlan klingStd5s).totalCost
        (ERat.fin inputsC5.budget) = true) :=
  have h := claim_C3 inputsC5 klingAI klingStandardPlan klingStd5s (by norm_num [inputsC5])
  ⟨h.1 10, h.2.1, h.2.2 rfl⟩

instance : IsTotal ScoredPlatform rankLE :=
  ⟨fun a b => by
    unfold rankLE rankLEb
    by_cases h : a.feasible = b.feasible
    · simp only [if_pos h, if_pos h.symm, decide_eq_true_eq]
      exact le_total b.score a.score
    · simp only [if_neg h, if_neg (Ne.symm h)]
      cases ha : a.feasible
      · cases hb : b.feasible
        · exact absurd (ha.trans hb.symm) h
        · exact Or.inr rfl
      · exact Or.inl rfl⟩

instance : IsTrans ScoredPlatform rankLE :=
  ⟨fun a b c hab hbc => by
    unfold rankLE rankLEb at hab hbc ⊢
    by_cases h1 : a.feasible = b.feasible <;> by_cases h2 : b.feasible = c.feasible
    · simp only [if_pos h1, decide_eq_true_eq] at hab
      simp only [if_pos h2, decide_eq_true_eq] at hbc
      simp only [if_pos (h1.trans h2), decide_eq_true_eq]
      exact hbc.trans hab
    · simp only [if_pos h1, decide_eq_true_eq] at hab
      simp only [if_neg h2] at hbc
      have hac : ¬(a.feasible = c.feasible) := fun hc => h2 (h1.symm.trans hc)
      simp only [if_neg hac]
      exact h1.trans hbc
    · simp only [if_neg h1] at hab
      simp only [if_pos h2] at hbc
      have hac : ¬(a.feasible = c.feasible) := fun hc => h1 (hc.trans h2.symm)
      simp only [if_neg hac]
      exact hab
    · simp only [if_neg h1] at hab
      simp only [if_neg h2] at hbc
      exact absurd (hab.trans hbc.symm) h1⟩

/-- The ranked list is sorted by the comparator relation. -/
theorem sortedPlatforms_sorted (inp : RecommendationInputs) :
    List.Sorted rankLE (sortedPlatforms inp) :=
  List.sorted_insertionSort rankLE (scoredOptions inp)

/-- C2: in the ranked output, for every pair of entries in order, an
infeasible entry never precedes a feasible one, and within a feasibility
group the scores are non-increasing. -/
theorem claim_C2 (inp : RecommendationInputs) :
    List.Pairwise
      (fun a b => (b.feasible = true → a.feasible = true) ∧
        (a.feasible = b.feasible → b.score ≤ a.score))
      (sortedPlatforms inp) := by
  refine (sortedPlatforms_sorted inp).imp ?_
  intro a b h
  unfold rankLE rankLEb at h
  by_cases heq : a.feasible = b.feasible
  · simp only [if_pos heq, decide_eq_true_eq] at h
    exact ⟨fun hb => heq.trans hb, fun _ => h⟩
  · simp only [if_neg heq] at h
    exact ⟨fun _ => h, fun heq' => absurd heq' heq⟩

/-- The engine always scores all 34 (platform, plan, option) triples of the
catalog, whatever the inputs. -/
theorem scoredOptions_length (inp : RecommendationInputs) :
    (scoredOptions inp).length = 34 := rfl

/-- The ranked list always has all 34 entries. -/
theorem sortedPlatforms_length (inp : RecommendationInputs) :
    (sortedPlatforms inp).length = 34 := by
  rw [sortedPlatforms, List.length_insertionSort]
  exact scoredOptions_length inp

/-- First-feasible-else-head, for any non-empty list. -/
theorem primary_spec (l : List ScoredPlatform) (hne : l ≠ []) :
    ∃ p, ((l.find? fun e => e.feasible) <|> l.head?) = some p ∧
      (l.find? (fun e => e.feasible) = some p ∨
        ((∀ e ∈ l, e.feasible = false) ∧ l.head? = some p)) := by
  cases hf : l.find? fun e => e.feasible with
  | some q => exact ⟨q, rfl, Or.inl rfl⟩
  | none =>
      have hall : ∀ e ∈ l, e.feasible = false := by
        intro e he
        simpa using List.find?_eq_none.mp hf e he
      cases l with
      | nil => exact absurd rfl hne
      | cons a t => exact ⟨a, rfl, Or.inr ⟨hall, rfl⟩⟩

/-- C10: the primary recommendation is always present: it is the first
feasible entry of the ranked list, or the head of the ranked list when no
entry is feasible. -/
theorem claim_C10 (inp : RecommendationInputs) :
    ∃ p, primaryRecommendation inp = some p ∧
      ((sortedPlatforms inp).find? (fun e => e.feasible) = some p ∨
        ((∀ e ∈ sortedPlatforms inp, e.feasible = false) ∧
          (sortedPlatforms inp).head? = some p)) := by
  have hne : sortedPlatforms inp ≠ [] := by
    intro h
    have hlen := sortedPlatforms_length inp
    rw [h] at hlen
    simp at hlen
  unfold primaryRecommendation
  exact primary_spec (sortedPlatforms inp) hne

/-- C8: duration mode on an unlimited flat-fee plan (quota unit unlimited,
cost unit not per-second): with budget at least the monthly cost, the raw
achievable video seconds are infinite, the emitted total cost equals exactly
the monthly cost, and the achievable duration equals the deadline-derived
ceiling `maxClipsInDeadline * maxDurationSec / 60`; with budget below the
monthly cost the achievable video seconds are 0. -/
theorem claim_C8 (opt : MediaOption) (plan : Plan) (platform : Platform)
    (inp : RecommendationInputs)
    (hqu : plan.quotaUnit = QuotaUnit.unlimited)
    (hcu : opt.costUnit ≠ CostUnit.per_second)
    (hmode : inp.calcMode = CalcMode.duration) :
    (plan.monthlyCost ≤ inp.budget →
      (durationModeOutcome opt plan inp.budget).totalVideoSeconds = ERat.inf ∧
      (scoreTriple inp platform plan opt).totalCost = ERat.fin plan.monthlyCost ∧
      (scoreTriple inp platform plan opt).achievableDuration =
        maxDurationFromTime plan opt platform inp.deadline inp.expertise) ∧
    (inp.budget < plan.monthlyCost →
      (durationModeOutcome opt plan inp.budget).totalVideoSeconds = ERat.fin 0) := by
  constructor
  · intro hb
    have h1 : (durationModeOutcome opt plan inp.budget).totalVideoSeconds = ERat.inf := by
      simp [durationModeOutcome, hqu, hcu, hb]
    have h2 : (durationModeOutcome opt plan inp.budget).totalCost = plan.monthlyCost := by
      simp [durationModeOutcome, hqu, hcu, hb]
    refine ⟨h1, ?_, ?_⟩
    · simp [scoreTriple, hmode, h2]
    · simp [scoreTriple, hmode, h1, achievableFromSeconds]
  · intro hb
    simp [durationModeOutcome, hqu, hcu, not_le.mpr hb]

/-- Duration-mode witness inputs for C8: budget 20 equals Sora Plus's
monthly cost. -/
def inputsC8 : RecommendationInputs :=
  { calcMode := .duration, deadline := 7, duration := 0, budget := 20,
    costQuality := 50, speedCost := 50, audioNeeds := .none,
    expertise := .beginner, enableComparison := false,
    traditionalCost := 3500, traditionalTime := 14 }

/-- Witness for C8 at the Sora Plus flat-fee unlimited plan with budget 20. -/
theorem claim_C8_witness :
    (durationModeOutcome soraPlus10 soraPlusPlan inputsC8.budget).totalVideoSeconds =
      ERat.inf ∧
    (scoreTriple inputsC8 openAISora soraPlusPlan soraPlus10).totalCost =
      ERat.fin soraPlusPlan.monthlyCost ∧
    (scoreTriple inputsC8 openAISora soraPlusPlan soraPlus10).achievableDuration =
      maxDurationFromTime soraPlusPlan soraPlus10 openAISora inputsC8.deadline
        inputsC8.expertise :=
  (claim_C8 soraPlus10 soraPlusPlan openAISora inputsC8 rfl (by simp [soraPlus10])
    rfl).1 (by norm_num [soraPlusPlan, inputsC8])

/-- The blended cost term never exceeds 15, the exact credit an infinite
cost-per-second receives. -/
theorem costScore_le (c : ℚ) :
    (if 0 < c then max 0 (1 - c / 5) * 15 else (15:ℚ)) ≤ 15 := by
  split_ifs with hc
  · have hm : max (0:ℚ) (1 - c / 5) ≤ 1 := max_le (by norm_num) (by linarith)
    nlinarith
  · exact le_rfl

/-- C6, amended: a zero-quota plan not marked unlimited with a non-per-second
option reports an infinite cost-per-second and an infinite cost-mode total
cost, as claimed; but such a triple is NOT ranked below an otherwise
identical finite-cost triple: the cost term grants the full 15-point credit
to an infinite cost, so with every other scoring input equal the
infinite-cost triple's composite score is at least the finite-cost one's. -/
theorem claim_C6 (opt : MediaOption) (plan : Plan)
    (hq0 : plan.quota = 0) (hqu : plan.quotaUnit ≠ QuotaUnit.unlimited)
    (hcu : opt.costUnit ≠ CostUnit.per_second) :
    calculateCostPerSecondUSD opt plan = ERat.inf ∧
    (∀ d : ℚ, costModeTotalCost opt plan d = ERat.inf) ∧
    (∀ (inp : RecommendationInputs) (platform : Platform) (plan' : Plan)
      (opt' : MediaOption) (feas : Bool) (acc q ach c : ℚ),
      inp.costQuality ≤ 100 →
      compositeScore inp platform plan' opt' feas acc (ERat.fin c) q ach ≤
        compositeScore inp platform plan' opt' feas acc ERat.inf q ach) := by
  refine ⟨?_, ?_, ?_⟩
  · simp [calculateCostPerSecondUSD, hq0, hcu]
  · intro d
    simp [costModeTotalCost, hqu, hq0]
  · intro inp platform plan' opt' feas acc q ach c hq
    have h1mq : (0:ℚ) ≤ 1 - inp.costQuality / 100 := by linarith
    have hmul := mul_le_mul_of_nonneg_right (costScore_le c) h1mq
    simp only [compositeScore]
    by_cases hP : inp.calcMode = CalcMode.duration ∧ 0 < ach
    · simp only [if_pos hP]
      linarith
    · simp only [if_neg hP]
      linarith

/-- A credits-priced 5-second option used by the C6 comparison. -/
def optC6 : MediaOption :=
  { modelId := "x-cred-5s", modelName := "X 5s", maxDurationSec := 5,
    resolution := .r1080p, hasAudio := false, costUnit := .credits,
    cost := .single 10 }

/-- A malformed zero-quota plan that is not marked unlimited. -/
def planC6inf : Plan :=
  { planName := "Zero", monthlyCost := 10, quota := 0, quotaUnit := .credits,
    maxParallel := 8, avgTimePerClipMin := 1.5, options := [optC6] }

/-- The identical plan except for a positive quota (finite cost). -/
def planC6fin : Plan :=
  { planName := "Zero", monthlyCost := 10, quota := 100, quotaUnit := .credits,
    maxParallel := 8, avgTimePerClipMin := 1.5, options := [optC6] }

/-- Cost-mode inputs under which both C6 triples are over budget (hence in
the same feasibility group) and the quality weight is zero. -/
def inputsC6 : RecommendationInputs :=
  { calcMode := .cost, deadline := 7, duration := 10, budget := 5,
    costQuality := 0, speedCost := 50, audioNeeds := .none,
    expertise := .beginner, enableComparison := false,
    traditionalCost := 3500, traditionalTime := 14 }

/-- Counterexample to C6 as stated: two triples identical in every scoring
input except the quota (0 versus 100), evaluated concretely.  The zero-quota
triple's cost-per-second is infinite and the other's is the finite 0.2
USD/s, both are infeasible (same group, so neither ranks below the other by
feasibility), yet the infinite-cost triple's composite score is strictly
HIGHER (37 versus 36.4), not lower: the claimed demotion does not happen. -/
theorem claim_C6_counterexample :
    (scoreTriple inputsC6 klingAI planC6fin optC6).score <
      (scoreTriple inputsC6 klingAI planC6inf optC6).score ∧
    (scoreTriple inputsC6 klingAI planC6inf optC6).feasible =
      (scoreTriple inputsC6 klingAI planC6fin optC6).feasible ∧
    (scoreTriple inputsC6 klingAI planC6inf optC6).costPerSecondUSD = ERat.inf ∧
    (scoreTriple inputsC6 klingAI planC6fin optC6).costPerSecondUSD = ERat.fin (1/5) := by
  have h1 : ⌈(10:ℚ) * 60 / 5⌉ = 120 := by rw [Int.ceil_eq_iff]; norm_num
  have h2 : ⌈(120:ℚ) * 10 / 100⌉ = 12 := by rw [Int.ceil_eq_iff]; norm_num
  refine ⟨?_, ?_, ?_, ?_⟩ <;>
    simp [scoreTriple, inputsC6, compositeScore, costModeTotalCost, plansNeededFor,
      totalUnitsNeededFor, clipsNeededFor, getAverage, calculateTimeRequirement,
      calculateCostPerSecondUSD, getQualityScore, resolutionScores, lookupQ,
      planHierarchyTable, platformReputationTable, canUseAPI, effectiveParallel,
      expertiseMatch, feasibleOf, Reason.includesAccounts, ERat.ltb, ERat.leb,
      klingAI, planC6inf, planC6fin, optC6, h1, h2, max_def, min_def] <;>
    norm_num

/-- Witness for C6 at the zero-quota plan and concrete scoring inputs. -/
theorem claim_C6_witness :
    calculateCostPerSecondUSD optC6 planC6inf = ERat.inf ∧
    costModeTotalCost optC6 planC6inf 10 = ERat.inf ∧
    compositeScore inputsC6 klingAI planC6inf optC6 false 1 (ERat.fin (1/5)) (15/2) 10 ≤
      compositeScore inputsC6 klingAI planC6inf optC6 false 1 ERat.inf (15/2) 10 :=
  have h := claim_C6 optC6 planC6inf rfl (by simp [planC6inf]) (by simp [optC6])
  ⟨h.1, h.2.1 10,
    h.2.2 inputsC6 klingAI planC6inf optC6 false 1 (15/2) 10 (1/5)
      (by norm_num [inputsC6])⟩

/-- The arithmetic heart of the round-trip bound: feeding the duration-mode
achievable duration back into the cost-mode workload formula costs at most
one extra subscription beyond the original budget, provided the per-clip
cost does not exceed one subscription's quota.  `B` budget, `M` monthly
cost, `Q` quota, `A` average per-clip cost, `D` clip length. -/
theorem roundTrip_bound (B M Q A D ach : ℚ)
    (hm : 0 < M) (hq : 0 < Q) (ha : 0 < A) (hle : A ≤ Q) (hd : 0 < D) (hb : 0 ≤ B)
    (hach : ach ≤ ((⌊B / M⌋ : ℤ) : ℚ) * Q / A * D / 60) :
    ((⌈((⌈ach * 60 / D⌉ : ℤ) : ℚ) * A / Q⌉ : ℤ) : ℚ) * M ≤ B + M := by
  have hpa0 : (0:ℤ) ≤ ⌊B / M⌋ := Int.floor_nonneg.mpr (div_nonneg hb hm.le)
  have h1 : ach * 60 / D ≤ ((⌊B / M⌋ : ℤ) : ℚ) * Q / A := by
    have h60 : ach * 60 ≤ ((⌊B / M⌋ : ℤ) : ℚ) * Q / A * D := by
      have := mul_le_mul_of_nonneg_right hach (by norm_num : (0:ℚ) ≤ 60)
      calc ach * 60 ≤ ((⌊B / M⌋ : ℤ) : ℚ) * Q / A * D / 60 * 60 := this
        _ = ((⌊B / M⌋ : ℤ) : ℚ) * Q / A * D := by ring
    calc ach * 60 / D ≤ ((⌊B / M⌋ : ℤ) : ℚ) * Q / A * D / D := by
          exact div_le_div_of_nonneg_right h60 hd.le
      _ = ((⌊B / M⌋ : ℤ) : ℚ) * Q / A := by field_simp; ring
  have h2 : (⌈ach * 60 / D⌉ : ℤ) ≤ ⌈((⌊B / M⌋ : ℤ) : ℚ) * Q / A⌉ := Int.ceil_mono h1
  have h4 : ((⌈((⌊B / M⌋ : ℤ) : ℚ) * Q / A⌉ : ℤ) : ℚ) < ((⌊B / M⌋ : ℤ) : ℚ) * Q / A + 1 :=
    Int.ceil_lt_add_one _
  have hKA : ((⌊B / M⌋ : ℤ) : ℚ) * Q / A * A = ((⌊B / M⌋ : ℤ) : ℚ) * Q := by
    field_simp
  have h7 : ((⌈ach * 60 / D⌉ : ℤ) : ℚ) * A < ((⌊B / M⌋ : ℤ) : ℚ) * Q + A := by
    have h3 : ((⌈ach * 60 / D⌉ : ℤ) : ℚ) * A ≤
        ((⌈((⌊B / M⌋ : ℤ) : ℚ) * Q / A⌉ : ℤ) : ℚ) * A :=
      mul_le_mul_of_nonneg_right (by exact_mod_cast h2) ha.le
    have h5 : ((⌈((⌊B / M⌋ : ℤ) : ℚ) * Q / A⌉ : ℤ) : ℚ) * A <
        (((⌊B / M⌋ : ℤ) : ℚ) * Q / A + 1) * A := mul_lt_mul_of_pos_right h4 ha
    nlinarith [hKA]
  have h8 : ((⌈ach * 60 / D⌉ : ℤ) : ℚ) * A / Q ≤ ((⌊B / M⌋ : ℤ) : ℚ) + 1 := by
    rw [div_le_iff hq]
    nlinarith
  have h9 : (⌈((⌈ach * 60 / D⌉ : ℤ) : ℚ) * A / Q⌉ : ℤ) ≤ ⌊B / M⌋ + 1 :=
    Int.ceil_le.mpr (by push_cast; linarith)
  have h10 : ((⌊B / M⌋ : ℤ) : ℚ) * M ≤ B := by
    have hfl : ((⌊B / M⌋ : ℤ) : ℚ) ≤ B / M := Int.floor_le (B / M)
    calc ((⌊B / M⌋ : ℤ) : ℚ) * M ≤ B / M * M := mul_le_mul_of_nonneg_right hfl hm.le
      _ = B := by field_simp
  have h11 : ((⌈((⌈ach * 60 / D⌉ : ℤ) : ℚ) * A / Q⌉ : ℤ) : ℚ) * M ≤
      (((⌊B / M⌋ : ℤ) : ℚ) + 1) * M := by
    have h9' : ((⌈((⌈ach * 60 / D⌉ : ℤ) : ℚ) * A / Q⌉ : ℤ) : ℚ) ≤ ((⌊B / M⌋ : ℤ) : ℚ) + 1 := by
      exact_mod_cast h9
    exact mul_le_mul_of_nonneg_right h9' hm.le
  nlinarith

/-- C4, amended: for a quota-based plan (quota > 0, monthly cost > 0) with a
non-ratio option of positive average cost not exceeding one subscription's
quota, feeding the duration-mode achievable duration back into the cost-mode
workload computation yields a total cost of at most the original budget PLUS
one monthly subscription (the ceil on clips can push the units needed just
past the purchased quota, buying one extra plan — so "at most the budget",
as originally claimed, fails, but only by that one subscription). -/
theorem claim_C4 (inp : RecommendationInputs) (platform : Platform) (plan : Plan)
    (opt : MediaOption)
    (hqu : plan.quotaUnit ≠ QuotaUnit.unlimited) (hq : 0 < plan.quota)
    (hm : 0 < plan.monthlyCost) (hcpc : 0 < getAverage opt.cost)
    (hle : getAverage opt.cost ≤ plan.quota) (hcu : opt.costUnit ≠ CostUnit.ratioUnit)
    (hmd : 0 < opt.maxDurationSec) (hb : 0 ≤ inp.budget)
    (hmode : inp.calcMode = CalcMode.duration) :
    ERat.leb
      (costModeTotalCost opt plan ((scoreTriple inp platform plan opt).achievableDuration))
      (ERat.fin (inp.budget + plan.monthlyCost)) = true := by
  have hach : (scoreTriple inp platform plan opt).achievableDuration =
      achievableFromSeconds (durationModeOutcome opt plan inp.budget).totalVideoSeconds
        (maxDurationFromTime plan opt platform inp.deadline inp.expertise) := by
    simp [scoreTriple, hmode]
  have hbound : (scoreTriple inp platform plan opt).achievableDuration ≤
      ((⌊inp.budget / plan.monthlyCost⌋ : ℤ) : ℚ) * plan.quota / getAverage opt.cost *
        opt.maxDurationSec / 60 := by
    rw [hach]
    by_cases hpa : 0 < ⌊inp.budget / plan.monthlyCost⌋
    · have hout : (durationModeOutcome opt plan inp.budget).totalVideoSeconds =
          ERat.fin (((⌊inp.budget / plan.monthlyCost⌋ : ℤ) : ℚ) * plan.quota /
            getAverage opt.cost * opt.maxDurationSec) := by
        simp [durationModeOutcome, hqu, hm, hpa, hcpc, hcu]
      rw [hout]
      simpa [achievableFromSeconds] using
        min_le_left ((((⌊inp.budget / plan.monthlyCost⌋ : ℤ) : ℚ) * plan.quota /
          getAverage opt.cost * opt.maxDurationSec) / 60)
          (maxDurationFromTime plan opt platform inp.deadline inp.expertise)
    · have hout : (durationModeOutcome opt plan inp.budget).totalVideoSeconds =
          ERat.fin 0 := by
        simp [durationModeOutcome, hqu, hm, hpa]
      have hpa0 : ⌊inp.budget / plan.monthlyCost⌋ = 0 :=
        le_antisymm (not_lt.mp hpa) (Int.floor_nonneg.mpr (div_nonneg hb hm.le))
      rw [hout, hpa0]
      simpa [achievableFromSeconds] using
        min_le_left (0:ℚ) (maxDurationFromTime plan opt platform inp.deadline inp.expertise)
  simp only [costModeTotalCost, totalUnitsNeededFor, plansNeededFor, clipsNeededFor]
  rw [if_neg hqu, if_pos hq, if_neg hcu]
  simp only [ERat.leb, decide_eq_true_eq]
  exact roundTrip_bound inp.budget plan.monthlyCost plan.quota (getAverage opt.cost)
    opt.maxDurationSec ((scoreTriple inp platform plan opt).achievableDuration)
    hm hq hcpc hle hmd hb hbound

/-- Duration-mode inputs for the C4 round trip: budget 10 buys exactly one
Leonardo Apprentice subscription. -/
def inputsC4 : RecommendationInputs :=
  { calcMode := .duration, deadline := 1, duration := 0, budget := 10,
    costQuality := 50, speedCost := 50, audioNeeds := .none,
    expertise := .beginner, enableComparison := false,
    traditionalCost := 3500, traditionalTime := 14 }

/-- Counterexample to C4 as stated: Leonardo Web Apprentice (10 USD, 8500
tokens) with Motion 1.0 (45 tokens per 3-second clip) and budget 10.
Duration mode yields 8500/45 clips' worth of video = 85/9 minutes; fed back
into cost mode this needs ceil(1700/9) = 189 clips = 8505 tokens > 8500, so
2 subscriptions = 20 USD — strictly over the original 10 USD budget. -/
theorem claim_C4_counterexample :
    (scoreTriple inputsC4 leoWebApp leoApprenticePlan leoWebMotion1A).achievableDuration =
      85/9 ∧
    costModeTotalCost leoWebMotion1A leoApprenticePlan (85/9) = ERat.fin 20 ∧
    ERat.leb
      (costModeTotalCost leoWebMotion1A leoApprenticePlan
        ((scoreTriple inputsC4 leoWebApp leoApprenticePlan leoWebMotion1A).achievableDuration))
      (ERat.fin inputsC4.budget) = false := by
  have h1 : ⌈(85:ℚ)/9 * 60 / 3⌉ = 189 := by rw [Int.ceil_eq_iff]; norm_num
  have h2 : ⌈(189:ℚ) * 45 / 8500⌉ = 2 := by rw [Int.ceil_eq_iff]; norm_num
  have hach : (scoreTriple inputsC4 leoWebApp leoApprenticePlan
      leoWebMotion1A).achievableDuration = 85/9 := by
    simp [scoreTriple, inputsC4, durationModeOutcome, leoApprenticePlan, leoWebMotion1A,
      leoWebApp, getAverage, achievableFromSeconds, maxDurationFromTime, canUseAPI,
      effectiveParallel, min_def]
    norm_num
  have hcost : costModeTotalCost leoWebMotion1A leoApprenticePlan (85/9) = ERat.fin 20 := by
    simp [costModeTotalCost, plansNeededFor, totalUnitsNeededFor, clipsNeededFor,
      leoApprenticePlan, leoWebMotion1A, getAverage, h1, h2]
    norm_num
  refine ⟨hach, hcost, ?_⟩
  rw [hach, hcost]
  simp [ERat.leb, inputsC4]
  norm_num

/-- Witness for C4 at the same concrete round trip: the cost, 20 USD, is
within budget + one subscription (10 + 10). -/
theorem claim_C4_witness :
    ERat.leb
      (costModeTotalCost leoWebMotion1A leoApprenticePlan
        ((scoreTriple inputsC4 leoWebApp leoApprenticePlan leoWebMotion1A).achievableDuration))
      (ERat.fin (inputsC4.budget + leoApprenticePlan.monthlyCost)) = true :=
  claim_C4 inputsC4 leoWebApp leoApprenticePlan leoWebMotion1A
    (by simp [leoApprenticePlan]) (by norm_num [leoApprenticePlan])
    (by norm_num [leoApprenticePlan]) (by norm_num [getAverage, leoWebMotion1A])
    (by norm_num [getAverage, leoWebMotion1A, leoApprenticePlan])
    (by simp [leoWebMotion1A]) (by norm_num [leoWebMotion1A])
    (by norm_num [inputsC4]) rfl
